import Mathlib

/-!
Verification of the token-transfer and balance-reading core of the
lazorkit-passkey-gasless-demo repository.

The embedding follows the TypeScript source:
  - `src/components/send-tokens.tsx` (component `SendTokens`: `isValidAddress`,
    `addToHistory`, `handleSend`);
  - `hooks/useTypedWallet.ts` (the memoised `smartWalletPubkey` derivation);
  - `hooks/useBalance.ts` (the `fetchBalances` state machine).

JavaScript numbers are IEEE-754 binary64 values.  Every number produced by
`parseFloat` or by an arithmetic operator is modelled as an exact rational
together with an explicit round-to-nearest-ties-to-even operation to 53
significant bits (`roundDouble`).  The values arising in this application are
well inside the normal range of binary64, so exponent clamping (overflow to
infinity, subnormal loss) is not modelled.
-/

namespace LazorDemo

/-! ### Base58 decoding and `PublicKey`

`new PublicKey(s)` in `@solana/web3.js` base58-decodes `s` and throws unless
the decoded byte string has length exactly 32.  We model a public key either
as its decoded 32 bytes or as the opaque associated-token-account derivation
`getAssociatedTokenAddress(mint, owner)` performed by `@solana/spl-token`. -/

inductive PublicKey where
  | bytes (bs : List Nat)
  | ataOf (mint owner : PublicKey)
deriving DecidableEq, Repr

/-- The base58 alphabet used by bs58 (Bitcoin alphabet). -/
def base58Chars : List Char :=
  "123456789ABCDEFGHJKLMNPQRSTUVWXYZabcdefghijkmnopqrstuvwxyz".toList

def base58Index (c : Char) : Option Nat :=
  List.findIdx? (fun d => d = c) base58Chars

/-- Value of a base58 string read as a big-endian base-58 numeral; `none` if a
character is outside the alphabet. -/
def base58DecodeNat (cs : List Char) : Option Nat :=
  cs.foldl
    (fun acc c =>
      match acc, base58Index c with
      | some n, some i => some (n * 58 + i)
      | _, _ => none)
    (some 0)

/-- Little-endian base-256 digits of a natural number, by structural
recursion on a fuel bound (the fuel `n` dominates the digit count, so the
fuel never runs out). -/
def natToBytesLEAux : Nat → Nat → List Nat
  | 0, _ => []
  | fuel + 1, n => if n = 0 then [] else (n % 256) :: natToBytesLEAux fuel (n / 256)

def natToBytesLE (n : Nat) : List Nat :=
  natToBytesLEAux n n

/-- Full bs58 decode: each leading alphabet-zero (the character 1) contributes
one leading zero byte, the rest is the big-endian byte expansion. -/
def base58DecodeBytes (s : String) : Option (List Nat) :=
  match base58DecodeNat s.toList with
  | none => none
  | some n =>
      let z := (s.toList.takeWhile (fun c => c = '1')).length
      some (List.replicate z 0 ++ (natToBytesLE n).reverse)

/-- `new PublicKey(s)` for a string argument: bs58-decode and require exactly
32 bytes; `none` models the constructor throwing. -/
def parsePubkey (s : String) : Option PublicKey :=
  match base58DecodeBytes s with
  | none => none
  | some bs => if bs.length = 32 then some (PublicKey.bytes bs) else none

/-- `isValidAddress` from `send-tokens.tsx`: `new PublicKey(address)` inside
try/catch, true iff the constructor does not throw. -/
def isValidAddress (address : String) : Bool :=
  (parsePubkey address).isSome

/-- `getAssociatedTokenAddress(mint, owner)` from `@solana/spl-token`: an
opaque deterministic derivation, modelled as a free constructor. -/
def getAssociatedTokenAddress (mint owner : PublicKey) : PublicKey :=
  PublicKey.ataOf mint owner

/-- Devnet USDC mint from `send-tokens.tsx` / `useBalance.ts`. -/
def USDC_MINT : PublicKey :=
  (parsePubkey "4zMMC9srt5Ri5X14GAgXhaHii3GnPAEERYPJgZJDncDU").getD (PublicKey.bytes [])

def USDC_DECIMALS : Nat := 6

def LAMPORTS_PER_SOL : Nat := 1000000000

/-! ### Kernel-computable arithmetic on ℚ

Batteries marks the arithmetic operations of `Rat` as irreducible, which
stops kernel evaluation (`decide`) of terms built from `*`, `⁻¹`, `-` and
casts.  The following helpers perform the same operations through `mkRat`,
which does reduce; the bridging lemmas `qmul_eq_mul`, `qneg_eq_neg`,
`qmulNat_eq_mul`, `qofNat_eq_cast`, `qdivNat_eq_div` and `qmulPow10_eq`
(below, after the definitions) prove each helper equal to the ordinary ℚ
operation, so the embedding may be read with ordinary arithmetic
throughout. -/

def qmul (a b : ℚ) : ℚ := mkRat (a.num * b.num) (a.den * b.den)

def qneg (a : ℚ) : ℚ := mkRat (-a.num) a.den

def qofNat (n : Nat) : ℚ := mkRat n 1

def qmulNat (a : ℚ) (n : Nat) : ℚ := mkRat (a.num * n) a.den

def qdivNat (a : ℚ) (n : Nat) : ℚ := mkRat a.num (a.den * n)

/-- Multiplication by an integer power of ten, used for the exponent part of
a decimal literal. -/
def qmulPow10 (a : ℚ) (ex : Int) : ℚ :=
  if 0 ≤ ex then mkRat (a.num * 10 ^ ex.toNat) a.den
  else mkRat a.num (a.den * 10 ^ (-ex).toNat)

/-! ### IEEE-754 binary64 rounding, modelled exactly on rationals -/

/-- Floor of the base-2 logarithm, by structural recursion on a fuel bound
(the fuel `n` dominates the halving count); agrees with `Nat.log2`. -/
def natLog2Aux : Nat → Nat → Nat
  | 0, _ => 0
  | fuel + 1, n => if 2 ≤ n then natLog2Aux fuel (n / 2) + 1 else 0

def natLog2 (n : Nat) : Nat :=
  natLog2Aux n n

/-- Round a nonnegative rational to the nearest binary64 value (53
significant bits, ties to even), returned as an exact rational.  The value
`a / b` is scaled by a power of two into `[2^52, 2^53)` and the scaled
significand is rounded. -/
def roundPosDouble (q : ℚ) : ℚ :=
  let a := q.num.toNat
  let b := q.den
  if a = 0 then 0
  else
    let shift := 53 + (natLog2 b + 1)
    let scaled := a * 2 ^ shift / b
    let e : Int := (natLog2 scaled : Int) - 52 - shift
    let A := if e ≤ 0 then a * 2 ^ (-e).toNat else a
    let B := if e ≤ 0 then b else b * 2 ^ e.toNat
    let q0 := A / B
    let r := A % B
    let m :=
      if 2 * r < B then q0
      else if B < 2 * r then q0 + 1
      else if q0 % 2 = 0 then q0 else q0 + 1
    if e ≤ 0 then mkRat m (2 ^ (-e).toNat)
    else mkRat (m * 2 ^ e.toNat) 1

/-- Round any rational to the nearest binary64 value (ties to even). -/
def roundDouble (q : ℚ) : ℚ :=
  if q < 0 then qneg (roundPosDouble (qneg q)) else roundPosDouble q

/-! ### `parseFloat`

ECMAScript `parseFloat` parses the longest numeric-literal prefix of the
string and yields NaN (modelled as `none`) when no digits are consumed.  The
model covers decimal literals `[sign] digits [. digits] [e [sign] digits]`;
the special literal Infinity and leading white space do not occur in this
application and are not modelled. -/

def digitVal (c : Char) : Nat := c.toNat - 48

/-- Consume a maximal digit prefix, returning its value, the number of digits
consumed, and the rest of the input. -/
def parseDigits : List Char → Nat → Nat → Nat × Nat × List Char
  | [], acc, cnt => (acc, cnt, [])
  | c :: cs, acc, cnt =>
      if c.isDigit then parseDigits cs (acc * 10 + digitVal c) (cnt + 1)
      else (acc, cnt, c :: cs)

def parseSign : List Char → Int × List Char
  | '-' :: cs => (-1, cs)
  | '+' :: cs => (1, cs)
  | cs => (1, cs)

/-- Optional exponent part; contributes nothing unless an `e` or `E` is
followed by at least one digit. -/
def parseExponent (cs : List Char) : Int :=
  match cs with
  | 'e' :: rest =>
      let (sgn, cs2) := parseSign rest
      let (v, cnt, _) := parseDigits cs2 0 0
      if cnt = 0 then 0 else sgn * v
  | 'E' :: rest =>
      let (sgn, cs2) := parseSign rest
      let (v, cnt, _) := parseDigits cs2 0 0
      if cnt = 0 then 0 else sgn * v
  | _ => 0

/-- Exact rational value of the longest numeric-literal prefix; `none` models
NaN. -/
def parseFloatExact (s : String) : Option ℚ :=
  let (sgn, cs) := parseSign s.toList
  let (ip, icnt, cs1) := parseDigits cs 0 0
  let (fp, fcnt, cs2) :=
    match cs1 with
    | '.' :: rest => parseDigits rest 0 0
    | _ => (0, 0, cs1)
  if icnt = 0 ∧ fcnt = 0 then none
  else
    let ex := parseExponent cs2
    let mant : ℚ := mkRat (sgn * ((ip * 10 ^ fcnt + fp : Nat) : Int)) (10 ^ fcnt)
    some (qmulPow10 mant ex)

/-- `parseFloat`: the binary64 value actually stored in the JavaScript number,
i.e. the exact decimal value correctly rounded; `none` models NaN. -/
def parseFloat (s : String) : Option ℚ :=
  (parseFloatExact s).map roundDouble

/-! ### The `SendTokens` component (`send-tokens.tsx`) -/

inductive TokenType where
  | SOL
  | USDC
deriving DecidableEq, Repr

inductive TxStatus where
  | idle
  | pending
  | success
  | error
deriving DecidableEq, Repr

structure TransactionRecord where
  signature : String
  token : TokenType
  amount : String
  timestamp : Nat
deriving DecidableEq, Repr

/-- The React state of the `SendTokens` component: form fields, transaction
state and the session-local history. -/
structure SendState where
  token : TokenType
  amount : String
  recipient : String
  status : TxStatus
  signature : Option String
  error : Option String
  txHistory : List TransactionRecord
deriving DecidableEq, Repr

/-- `addToHistory`: prepend the new record and keep at most the four most
recent previous entries (`[newRecord, ...prev.slice(0, 4)]`). -/
def addToHistory (sig : String) (tokenType : TokenType) (amt : String)
    (now : Nat) (prev : List TransactionRecord) : List TransactionRecord :=
  { signature := sig, token := tokenType, amount := amt, timestamp := now } :: prev.take 4

/-- Instructions as assembled by `handleSend`.  `systemTransfer` is
`SystemProgram.transfer`, `createAtaIdempotent` is
`createAssociatedTokenAccountIdempotentInstruction(payer, ata, owner, mint)`
and `splTransfer` is `createTransferInstruction(source, destination,
authority, amount)`. -/
inductive Instr where
  | systemTransfer (fromPubkey toPubkey : PublicKey) (lamports : Int)
  | createAtaIdempotent (payer ata owner mint : PublicKey)
  | splTransfer (source destination authority : PublicKey) (amount : Int)
deriving DecidableEq, Repr

/-- Result of one `handleSend` invocation: the component state afterwards and
the list of `signAndSendTransaction` calls made (each carrying its
instruction list). -/
structure SendOutcome where
  state : SendState
  adapterCalls : List (List Instr)
deriving DecidableEq, Repr

/-- The amount validation of `handleSend`:
`!amount || parseFloat(amount) <= 0`.  When `parseFloat` yields NaN the
comparison `NaN <= 0` is false, so a NaN amount does NOT fail this check;
the `none` branch therefore returns `false`. -/
def amountInvalid (amount : String) : Bool :=
  amount == "" ||
    (match parseFloat amount with
     | some q => decide (q ≤ 0)
     | none => false)

/-- `handleSend` from `send-tokens.tsx`.

The adapter argument models `signAndSendTransaction` from the typed wallet
hook: `Except.ok sig` is a resolved promise, `Except.error msg` a rejection
whose extracted message is `msg`.

Control flow mirrors the source: clear `error` and `signature`; the three
validations in order (wallet connected, amount, recipient), each returning
early; `setStatus("pending")`; build the instruction list for the selected
token; one adapter call; on success record the signature, append to history
and clear the form, on rejection record the message and the error status.

The recipient check `!recipient || !isValidAddress(recipient)` followed by
`new PublicKey(recipient)` is rendered as an emptiness test followed by a
match on `parsePubkey` (recall `isValidAddress = (parsePubkey ·).isSome` and
`parsePubkey "" = none`).  If the amount is NaN it slips past validation and
the later `BigInt(Math.floor(NaN))` (resp. the lamports encoding) throws
inside the try block, landing in the catch; that branch is modelled
explicitly and makes no adapter call.  The deferred
`onTransactionSuccess` callback and the debug logging are outside the model. -/
def handleSend (s0 : SendState) (smartWalletPubkey : Option PublicKey)
    (adapter : List Instr → Except String String) (now : Nat) : SendOutcome :=
  let s := { s0 with error := none, signature := none }
  match smartWalletPubkey with
  | none => { state := { s with error := some "Wallet not connected" }, adapterCalls := [] }
  | some wallet =>
    if amountInvalid s.amount then
      { state := { s with error := some "Please enter a valid amount" }, adapterCalls := [] }
    else if s.recipient = "" then
      { state := { s with error := some "Please enter a valid Solana address" }, adapterCalls := [] }
    else
      match parsePubkey s.recipient with
      | none =>
          { state := { s with error := some "Please enter a valid Solana address" }, adapterCalls := [] }
      | some recipientPubkey =>
        let s1 := { s with status := TxStatus.pending }
        match parseFloat s.amount with
        | none =>
            { state := { s1 with error := some "Transaction failed", status := TxStatus.error },
              adapterCalls := [] }
        | some pf =>
          let instrs : List Instr :=
            match s.token with
            | TokenType.SOL =>
                let lamports := Rat.floor (roundDouble (qmulNat pf LAMPORTS_PER_SOL))
                [Instr.systemTransfer wallet recipientPubkey lamports]
            | TokenType.USDC =>
                let sourceAccount := getAssociatedTokenAddress USDC_MINT wallet
                let destinationAccount := getAssociatedTokenAddress USDC_MINT recipientPubkey
                let amountBigInt := Rat.floor (roundDouble (qmulNat pf (10 ^ USDC_DECIMALS)))
                [Instr.createAtaIdempotent wallet destinationAccount recipientPubkey USDC_MINT,
                 Instr.splTransfer sourceAccount destinationAccount wallet amountBigInt]
          match adapter instrs with
          | Except.ok txSignature =>
              { state :=
                  { s1 with
                    signature := some txSignature,
                    status := TxStatus.success,
                    txHistory := addToHistory txSignature s.token s.amount now s.txHistory,
                    amount := "",
                    recipient := "" },
                adapterCalls := [instrs] }
          | Except.error msg =>
              { state := { s1 with error := some msg, status := TxStatus.error },
                adapterCalls := [instrs] }

/-! ### The typed-wallet adapter (`useTypedWallet.ts`) -/

/-- The memoised `smartWalletPubkey` derivation of `useTypedWallet`: prefer
the address object supplied by the SDK (`if (sdkSmartWalletPubkey)`); else,
if the session exposes a non-empty raw string (`if (smartWalletAddress)`,
JavaScript string truthiness), parse it with `new PublicKey(...)`, yielding
`null` when parsing throws; else `null`.  The function is total: no
exception escapes. -/
def deriveSmartWalletPubkey (sdkSmartWalletPubkey : Option PublicKey)
    (smartWalletAddress : Option String) : Option PublicKey :=
  match sdkSmartWalletPubkey with
  | some pk => some pk
  | none =>
    match smartWalletAddress with
    | some s => if s = "" then none else parsePubkey s
    | none => none

/-! ### The balance reader (`useBalance.ts`)

`fetchBalances` is an async function; its externally visible effects are the
`setState` calls.  The two RPC reads are modelled by an environment record:
the result of `connection.getBalance` and the result of the
`getAssociatedTokenAddress`/`getAccount` pair.  The inner try/catch around
the token read is a catch-all: it cannot distinguish a missing token account
from a network failure, both set `usdcBalance = 0`. -/

inductive GetBalanceOutcome where
  | ok (lamports : Nat)
  | netError (msg : String)
deriving DecidableEq, Repr

inductive GetAccountOutcome where
  | ok (amount : Nat)
  | notFound
  | netError (msg : String)
deriving DecidableEq, Repr

structure ChainEnv where
  balanceResult : GetBalanceOutcome
  accountResult : GetAccountOutcome
deriving DecidableEq, Repr

structure BalanceState where
  solBalance : Option ℚ
  usdcBalance : Option ℚ
  isLoading : Bool
  error : Option String
deriving DecidableEq, Repr

/-- The `useState` initial value of the hook. -/
def initialBalanceState : BalanceState :=
  { solBalance := none, usdcBalance := none, isLoading := false, error := none }

/-- The state written when the queried address is null. -/
def resetBalanceState : BalanceState :=
  { solBalance := none, usdcBalance := none, isLoading := false, error := none }

/-- The synchronous prefix of a fetch for a non-null address:
`setState(prev => ({...prev, isLoading: true, error: null}))`. -/
def startLoading (s : BalanceState) : BalanceState :=
  { s with isLoading := true, error := none }

/-- The awaited remainder of a fetch resolving against environment `env`.
On a successful `getBalance`, `solLamports / LAMPORTS_PER_SOL` and
`Number(tokenAccount.amount) / Math.pow(10, USDC_DECIMALS)` are binary64
divisions, modelled with `roundDouble`; any failure of the token read gives
`usdcBalance = 0` (the inner catch-all), and the whole snapshot is replaced
with `error: null`.  If `getBalance` throws, the outer catch sets
`isLoading: false` and the message, spreading `prev` so the previous
balances survive. -/
def completeFetch (env : ChainEnv) (s : BalanceState) : BalanceState :=
  match env.balanceResult with
  | GetBalanceOutcome.ok solLamports =>
      let solBalance : ℚ := roundDouble (qdivNat (roundDouble (qofNat solLamports)) LAMPORTS_PER_SOL)
      let usdcBalance : ℚ :=
        match env.accountResult with
        | GetAccountOutcome.ok amt =>
            roundDouble (qdivNat (roundDouble (qofNat amt)) (10 ^ USDC_DECIMALS))
        | GetAccountOutcome.notFound => 0
        | GetAccountOutcome.netError _ => 0
      { solBalance := some solBalance, usdcBalance := some usdcBalance,
        isLoading := false, error := none }
  | GetBalanceOutcome.netError msg =>
      { s with isLoading := false, error := some msg }

/-- One whole `fetchBalances` call running without interleaving: the null
check, then the loading transition and the awaited completion. -/
def fetchBalances (addr : Option String) (env : ChainEnv) (s : BalanceState) : BalanceState :=
  match addr with
  | none => resetBalanceState
  | some _ => completeFetch env (startLoading s)

/-- Atomic state transitions of the hook, allowing fetches to interleave: a
reset (invocation with a null address), the synchronous prefix of an
invocation with an address, and the resolution of some in-flight fetch.  The
source has no generation counter or cancellation, so a resolution applies
whenever it arrives. -/
inductive BalanceAction where
  | resetNull
  | beginFetch
  | completeWith (env : ChainEnv)
deriving DecidableEq, Repr

def balanceStep (s : BalanceState) : BalanceAction → BalanceState
  | BalanceAction.resetNull => resetBalanceState
  | BalanceAction.beginFetch => startLoading s
  | BalanceAction.completeWith env => completeFetch env s

def runBalance (s : BalanceState) (acts : List BalanceAction) : BalanceState :=
  acts.foldl balanceStep s

/-! ### Bridging lemmas: the kernel-computable helpers are ℚ arithmetic -/

theorem qmul_eq_mul (a b : ℚ) : qmul a b = a * b := by
  conv_rhs => rw [← Rat.mkRat_self a, ← Rat.mkRat_self b]
  rw [Rat.mkRat_mul_mkRat]
  rfl

theorem qneg_eq_neg (a : ℚ) : qneg a = -a := by
  conv_rhs => rw [← Rat.mkRat_self a]
  rw [Rat.neg_mkRat]
  rfl

theorem qofNat_eq_cast (n : Nat) : qofNat n = (n : ℚ) := by
  rw [qofNat, Rat.mkRat_one]
  norm_cast

theorem qmulNat_eq_mul (a : ℚ) (n : Nat) : qmulNat a n = a * (n : ℚ) := by
  rw [qmulNat, ← qmul_eq_mul, qmul]
  norm_num

theorem qdivNat_eq_div (a : ℚ) (n : Nat) : qdivNat a n = a / (n : ℚ) := by
  rw [qdivNat, Rat.mkRat_eq_divInt, Rat.divInt_eq_div]
  push_cast
  conv_rhs => rw [← Rat.num_div_den a]
  rw [div_div]

theorem qmulPow10_eq (a : ℚ) (ex : Int) : qmulPow10 a ex = a * (10 : ℚ) ^ ex := by
  rw [qmulPow10]
  by_cases h : 0 ≤ ex
  · have h10 : (10 : ℚ) ^ ex = ((10 ^ ex.toNat : ℕ) : ℚ) := by
      calc (10 : ℚ) ^ ex = (10 : ℚ) ^ ((ex.toNat : ℕ) : ℤ) := by rw [Int.toNat_of_nonneg h]
        _ = (10 : ℚ) ^ (ex.toNat : ℕ) := zpow_natCast _ _
        _ = ((10 ^ ex.toNat : ℕ) : ℚ) := by push_cast; ring
    rw [if_pos h, h10, ← qmulNat_eq_mul, qmulNat]
    norm_num
  · have hex : ex = -(((-ex).toNat : ℕ) : ℤ) := by
      have := Int.toNat_of_nonneg (show 0 ≤ -ex by omega)
      omega
    rw [if_neg h]
    calc mkRat a.num (a.den * 10 ^ (-ex).toNat)
        = qdivNat a (10 ^ (-ex).toNat) := rfl
      _ = a / ((10 ^ (-ex).toNat : ℕ) : ℚ) := qdivNat_eq_div _ _
      _ = a / (10 : ℚ) ^ ((-ex).toNat : ℕ) := by push_cast; ring_nf
      _ = a * ((10 : ℚ) ^ ((-ex).toNat : ℕ))⁻¹ := div_eq_mul_inv _ _
      _ = a * ((10 : ℚ) ^ (((-ex).toNat : ℕ) : ℤ))⁻¹ := by rw [zpow_natCast]
      _ = a * (10 : ℚ) ^ (-(((-ex).toNat : ℕ) : ℤ)) := by rw [zpow_neg]
      _ = a * (10 : ℚ) ^ ex := by rw [← hex]

/-! ### Concrete fixtures used by the claim theorems -/

/-- An arbitrary connected smart-wallet key. -/
def sampleWallet : PublicKey := PublicKey.bytes (List.replicate 32 7)

/-- The system-program address string: a valid base58 spelling of the
all-zero 32-byte key, used as a structurally valid recipient input. -/
def sampleRecipientStr : String := "11111111111111111111111111111111"

def sampleRecipient : PublicKey := PublicKey.bytes (List.replicate 32 0)

/-- An adapter whose `signAndSendTransaction` resolves with a fixed
signature. -/
def okAdapter : List Instr → Except String String := fun _ => Except.ok "sig-demo"

/-- Fresh component state with the given form fields. -/
def mkSendState (tok : TokenType) (amt dst : String) : SendState :=
  { token := tok, amount := amt, recipient := dst, status := TxStatus.idle,
    signature := none, error := none, txHistory := [] }

/-- Chain reads succeed: 2 SOL and a token account holding 5 USDC. -/
def sampleEnv : ChainEnv :=
  { balanceResult := GetBalanceOutcome.ok 2000000000,
    accountResult := GetAccountOutcome.ok 5000000 }

/-- The SOL read succeeds but the token-account read fails with a network
error (not a missing account). -/
def tokenReadNetErrEnv : ChainEnv :=
  { balanceResult := GetBalanceOutcome.ok 2000000000,
    accountResult := GetAccountOutcome.netError "connection refused" }

/-- The SOL read succeeds and the token account does not exist. -/
def tokenMissingEnv : ChainEnv :=
  { balanceResult := GetBalanceOutcome.ok 2000000000,
    accountResult := GetAccountOutcome.notFound }

/-- The SOL read itself fails with a network error. -/
def solReadNetErrEnv : ChainEnv :=
  { balanceResult := GetBalanceOutcome.netError "connection refused",
    accountResult := GetAccountOutcome.notFound }

/-- A snapshot still displaying previously fetched balances. -/
def staleBalances : BalanceState :=
  { solBalance := some 1, usdcBalance := some 7, isLoading := false, error := none }

/-! ### Claim theorems -/

set_option maxRecDepth 10000 in
/-- Claim C1: the claim asserts that for every 6-decimal-exact amount the
token-transfer amount computed by `handleSend` equals the exact
`floor(amount * 10^6)`.  The code computes
`BigInt(Math.floor(parseFloat(amount) * Math.pow(10, 6)))` in binary64
floating point, and for the 6-decimal amount "0.000249" this drifts: the
exact value is 249 base units, the code produces 248 (the double nearest to
249/10^6 lies below it, and the product rounds below 249).  The spec demands
an arbitrary-precision conversion with no drift, so this is a code bug.
The four conjuncts show: the adapter receives a transfer of 248 base units;
the parsed exact value of the amount string; that value as a fraction; and
the exact-arithmetic floor being 249. -/
theorem handleSend_usdc_amount_drifts_from_exact :
    (handleSend (mkSendState TokenType.USDC "0.000249" sampleRecipientStr)
        (some sampleWallet) okAdapter 0).adapterCalls =
      [[Instr.createAtaIdempotent sampleWallet
          (getAssociatedTokenAddress USDC_MINT sampleRecipient) sampleRecipient USDC_MINT,
        Instr.splTransfer (getAssociatedTokenAddress USDC_MINT sampleWallet)
          (getAssociatedTokenAddress USDC_MINT sampleRecipient) sampleWallet 248]]
    ∧ parseFloatExact "0.000249" = some (mkRat 249 (10 ^ 6))
    ∧ mkRat 249 (10 ^ 6) = (249 : ℚ) / 10 ^ 6
    ∧ Rat.floor ((249 : ℚ) / 10 ^ 6 * 10 ^ 6) = 249 := by
  refine ⟨by decide, by decide, ?_, ?_⟩
  · rw [Rat.mkRat_eq_divInt, Rat.divInt_eq_div]
    norm_num
  · rw [show ((249 : ℚ) / 10 ^ 6 * 10 ^ 6) = (249 : ℚ) from by norm_num]
    decide

set_option maxRecDepth 10000 in
/-- Claim C4 counterexample: the claim asserts that once the queried address
becomes null, no in-flight fetch ever writes its result back into the
snapshot.  The trace begin-fetch, reset-to-null, in-flight-completion is
possible in the source (there is no generation counter or cancellation), and
after the completion the snapshot is no longer the reset state: the stale
result has been written back. -/
theorem balance_null_reset_not_protected_from_writeback :
    runBalance initialBalanceState
        [BalanceAction.beginFetch, BalanceAction.resetNull,
         BalanceAction.completeWith sampleEnv]
      ≠ resetBalanceState := by
  decide

set_option maxRecDepth 10000 in
/-- Claim C4 (amended): invoking `fetchBalances` while the address is null
resets the snapshot to the all-null, not-loading state; but a fetch already
in flight for the previous address is neither cancelled nor guarded, and
when it resolves it overwrites the snapshot, so a late write-back after the
reset is possible. -/
theorem balance_null_reset_and_late_writeback :
    (∀ (env : ChainEnv) (s : BalanceState), fetchBalances none env s = resetBalanceState)
    ∧ runBalance initialBalanceState [BalanceAction.beginFetch, BalanceAction.resetNull]
        = resetBalanceState
    ∧ runBalance initialBalanceState
        [BalanceAction.beginFetch, BalanceAction.resetNull,
         BalanceAction.completeWith sampleEnv]
        = { solBalance := some 2, usdcBalance := some 5, isLoading := false, error := none } := by
  refine ⟨fun env s => rfl, by decide, by decide⟩

set_option maxRecDepth 10000 in
/-- Claim C7: the claim asserts that every refresh failing for a reason
other than a missing token account surfaces an error and leaves the previous
balances untouched.  The inner try/catch of `fetchBalances` is a catch-all:
a network failure of the token-account read is treated exactly like a
missing account, producing a successful snapshot with `usdcBalance = 0`,
no error, and the previous balances overwritten (first conjunct) — the
claim holds only for failures of the SOL read (third conjunct).  The spec
(capture a message on any non-missing failure) and the source comment on the
catch (account does not exist) state the intent, so this is a code bug.
The second conjunct shows the missing-account half of the claim holding. -/
theorem fetchBalances_swallows_token_read_network_error :
    fetchBalances (some "addr") tokenReadNetErrEnv staleBalances
        = { solBalance := some 2, usdcBalance := some 0, isLoading := false, error := none }
    ∧ fetchBalances (some "addr") tokenMissingEnv staleBalances
        = { solBalance := some 2, usdcBalance := some 0, isLoading := false, error := none }
    ∧ fetchBalances (some "addr") solReadNetErrEnv staleBalances
        = { solBalance := some 1, usdcBalance := some 7, isLoading := false,
            error := some "connection refused" } := by
  refine ⟨by decide, by decide, by decide⟩

set_option maxRecDepth 10000 in
/-- Claim C8: the claim asserts that every amount string that does not parse
as a strictly positive number fails validation with the invalid-amount
error, including non-numeric strings.  The check is
`!amount || parseFloat(amount) <= 0`; `parseFloat("abc")` is NaN and
`NaN <= 0` is false, so "abc" passes the amount check and validation
proceeds to the recipient check (third conjunct: the reported error is the
invalid-address message, not the invalid-amount one).  The spec sentence
that the amount must parse as a positive number states the intent, so this
is a code bug.  The remaining conjuncts confirm the cases the claim gets
right: "0", "-1" and the empty string do fail the amount check. -/
theorem amount_check_passes_nan :
    amountInvalid "abc" = false
    ∧ parseFloat "abc" = none
    ∧ (handleSend (mkSendState TokenType.SOL "abc" "") (some sampleWallet) okAdapter 0).state.error
        = some "Please enter a valid Solana address"
    ∧ amountInvalid "0" = true
    ∧ amountInvalid "-1" = true
    ∧ amountInvalid "" = true := by
  refine ⟨by decide, by decide, by decide, by decide, by decide, by decide⟩

/-- Claim C2: `handleSend` performs its three validation checks in the fixed
order wallet-connected, amount, recipient; the first violation wins and
determines the reported message; and whenever a check fails, zero calls to
the adapter are made — in particular a submission with an empty recipient
never reaches the adapter, whatever the wallet state. -/
theorem handleSend_validation_order (s : SendState) (w : PublicKey)
    (adapter : List Instr → Except String String) (now : Nat) :
    ((handleSend s none adapter now).adapterCalls = []
      ∧ (handleSend s none adapter now).state.error = some "Wallet not connected")
    ∧ (amountInvalid s.amount = true →
        (handleSend s (some w) adapter now).adapterCalls = []
        ∧ (handleSend s (some w) adapter now).state.error = some "Please enter a valid amount")
    ∧ (amountInvalid s.amount = false → isValidAddress s.recipient = false →
        (handleSend s (some w) adapter now).adapterCalls = []
        ∧ (handleSend s (some w) adapter now).state.error
            = some "Please enter a valid Solana address")
    ∧ (s.recipient = "" → ∀ wopt : Option PublicKey,
        (handleSend s wopt adapter now).adapterCalls = []) := by
  refine ⟨⟨rfl, rfl⟩, ?_, ?_, ?_⟩
  · intro h
    exact ⟨by simp [handleSend, h], by simp [handleSend, h]⟩
  · intro hA hR
    have hP : parsePubkey s.recipient = none := by
      cases hp : parsePubkey s.recipient with
      | none => rfl
      | some v => simp [isValidAddress, hp] at hR
    by_cases hE : s.recipient = ""
    · exact ⟨by simp [handleSend, hA, hE], by simp [handleSend, hA, hE]⟩
    · exact ⟨by simp [handleSend, hA, hE, hP], by simp [handleSend, hA, hE, hP]⟩
  · intro hE wopt
    cases wopt with
    | none => rfl
    | some w2 =>
      by_cases hA : amountInvalid s.amount
      · simp [handleSend, hA]
      · simp [handleSend, hA, hE]

set_option maxRecDepth 10000 in
/-- Claim C2 witness: with the parseable positive amount "1.5" and an empty
recipient, validation stops at the recipient check and the adapter call
count is zero. -/
theorem handleSend_validation_order_witness :
    (handleSend (mkSendState TokenType.USDC "1.5" "") (some sampleWallet) okAdapter 0).adapterCalls
        = []
    ∧ (handleSend (mkSendState TokenType.USDC "1.5" "") (some sampleWallet) okAdapter 0).state.error
        = some "Please enter a valid Solana address" :=
  (handleSend_validation_order (mkSendState TokenType.USDC "1.5" "") sampleWallet okAdapter 0).2.2.1
    (by decide) (by decide)

/-- Claim C3: for every valid submission (wallet connected, amount parses to
a positive number, recipient parses), the USDC path submits exactly the
two-element instruction list with the idempotent ATA-creation instruction
(payer = sender, owner = recipient, mint = USDC) first and the transfer
instruction (source = sender ATA, destination = recipient ATA, authority =
sender) second, and the SOL path submits exactly one system transfer.  The
construction reads no chain state, so the instruction set is the same
whether or not the recipient token account already exists. -/
theorem handleSend_instruction_sets (s : SendState) (w r : PublicKey) (q : ℚ)
    (adapter : List Instr → Except String String) (now : Nat)
    (hA : parseFloat s.amount = some q) (hq : 0 < q)
    (hr : parsePubkey s.recipient = some r) :
    (s.token = TokenType.USDC →
      (handleSend s (some w) adapter now).adapterCalls =
        [[Instr.createAtaIdempotent w (getAssociatedTokenAddress USDC_MINT r) r USDC_MINT,
          Instr.splTransfer (getAssociatedTokenAddress USDC_MINT w)
            (getAssociatedTokenAddress USDC_MINT r) w
            (Rat.floor (roundDouble (q * ((10 ^ USDC_DECIMALS : ℕ) : ℚ))))]])
    ∧ (s.token = TokenType.SOL →
      (handleSend s (some w) adapter now).adapterCalls =
        [[Instr.systemTransfer w r
            (Rat.floor (roundDouble (q * ((LAMPORTS_PER_SOL : ℕ) : ℚ))))]]) := by
  have hne : s.amount ≠ "" := by
    intro h
    rw [h, show parseFloat "" = none from by decide] at hA
    exact Option.noConfusion hA
  have h1 : (s.amount == "") = false := beq_eq_false_iff_ne.mpr hne
  have h2 : decide (q ≤ 0) = false := decide_eq_false (not_le.mpr hq)
  have hAI : amountInvalid s.amount = false := by
    simp [amountInvalid, hA, h1, h2]
  have hrne : s.recipient ≠ "" := by
    intro h
    rw [h, show parsePubkey "" = none from by decide] at hr
    exact Option.noConfusion hr
  constructor
  · intro ht
    rw [show q * ((10 ^ USDC_DECIMALS : ℕ) : ℚ) = qmulNat q (10 ^ USDC_DECIMALS) from
      (qmulNat_eq_mul q _).symm]
    cases hcall : adapter
        [Instr.createAtaIdempotent w (getAssociatedTokenAddress USDC_MINT r) r USDC_MINT,
         Instr.splTransfer (getAssociatedTokenAddress USDC_MINT w)
           (getAssociatedTokenAddress USDC_MINT r) w
           (Rat.floor (roundDouble (qmulNat q (10 ^ USDC_DECIMALS))))] with
    | ok sig => simp [handleSend, hAI, hrne, hr, hA, ht, hcall]
    | error msg => simp [handleSend, hAI, hrne, hr, hA, ht, hcall]
  · intro ht
    rw [show q * ((LAMPORTS_PER_SOL : ℕ) : ℚ) = qmulNat q LAMPORTS_PER_SOL from
      (qmulNat_eq_mul q _).symm]
    cases hcall : adapter
        [Instr.systemTransfer w r (Rat.floor (roundDouble (qmulNat q LAMPORTS_PER_SOL)))] with
    | ok sig => simp [handleSend, hAI, hrne, hr, hA, ht, hcall]
    | error msg => simp [handleSend, hAI, hrne, hr, hA, ht, hcall]

set_option maxRecDepth 10000 in
/-- Claim C3 witness: a concrete USDC submission with amount "1.5" and the
system-program address as recipient submits exactly the create-then-transfer
pair. -/
theorem handleSend_instruction_sets_witness :
    (handleSend (mkSendState TokenType.USDC "1.5" sampleRecipientStr)
        (some sampleWallet) okAdapter 0).adapterCalls =
      [[Instr.createAtaIdempotent sampleWallet
          (getAssociatedTokenAddress USDC_MINT sampleRecipient) sampleRecipient USDC_MINT,
        Instr.splTransfer (getAssociatedTokenAddress USDC_MINT sampleWallet)
          (getAssociatedTokenAddress USDC_MINT sampleRecipient) sampleWallet
          (Rat.floor (roundDouble (mkRat 3 2 * ((10 ^ USDC_DECIMALS : ℕ) : ℚ))))]] :=
  (handleSend_instruction_sets (mkSendState TokenType.USDC "1.5" sampleRecipientStr)
      sampleWallet sampleRecipient (mkRat 3 2) okAdapter 0
      (by decide) (by decide) (by decide)).1 rfl

/-- Claim C5: the derived `smartWalletPubkey` equals the SDK-supplied
address object whenever one is present; otherwise, when the session exposes
a raw address string, it equals the parse result — the canonical address on
success and null on failure, the derivation being a total function that
never throws; and it is null when both sources are absent.  (For the empty
raw string, which JavaScript treats as falsy, the derivation skips parsing
and yields null, which coincides with the parse result of the empty
string.) -/
theorem smartWalletPubkey_derivation (pk : PublicKey) (raw : Option String) (s : String) :
    deriveSmartWalletPubkey (some pk) raw = some pk
    ∧ deriveSmartWalletPubkey none (some s) = parsePubkey s
    ∧ deriveSmartWalletPubkey none none = none := by
  refine ⟨rfl, ?_, rfl⟩
  by_cases h : s = ""
  · subst h
    decide
  · simp [deriveSmartWalletPubkey, h]

/-- Claim C6: `addToHistory` places the new TransactionRecord at index 0,
and for every prior history list the resulting length is at most 5 — so the
history never exceeds 5 entries however many successful submissions
occur. -/
theorem addToHistory_head_and_bound (sig : String) (tok : TokenType) (amt : String)
    (now : Nat) (prev : List TransactionRecord) :
    (addToHistory sig tok amt now prev).head? =
        some { signature := sig, token := tok, amount := amt, timestamp := now }
    ∧ (addToHistory sig tok amt now prev).length ≤ 5 := by
  refine ⟨rfl, ?_⟩
  simp [addToHistory, List.length_take]

/-- Claim C9: when any of the three validation checks fails, `handleSend`
leaves the status field at its previous value (pending is set only after all
three checks pass), while the error message is set and the previously
displayed signature is cleared — so a prior success status survives a
subsequent failed validation. -/
theorem handleSend_validation_failure_keeps_status (s : SendState)
    (wopt : Option PublicKey) (adapter : List Instr → Except String String) (now : Nat)
    (hfail : wopt = none
      ∨ amountInvalid s.amount = true
      ∨ isValidAddress s.recipient = false) :
    (handleSend s wopt adapter now).state.status = s.status
    ∧ (handleSend s wopt adapter now).state.signature = none
    ∧ (handleSend s wopt adapter now).state.error.isSome = true := by
  cases wopt with
  | none => exact ⟨rfl, rfl, rfl⟩
  | some w =>
    have hfail2 : amountInvalid s.amount = true ∨ isValidAddress s.recipient = false := by
      rcases hfail with h | h | h
      · exact absurd h (by simp)
      · exact Or.inl h
      · exact Or.inr h
    by_cases hA : amountInvalid s.amount
    · exact ⟨by simp [handleSend, hA], by simp [handleSend, hA], by simp [handleSend, hA]⟩
    · have hR : isValidAddress s.recipient = false := by
        rcases hfail2 with h | h
        · exact absurd h hA
        · exact h
      have hP : parsePubkey s.recipient = none := by
        cases hp : parsePubkey s.recipient with
        | none => rfl
        | some v => simp [isValidAddress, hp] at hR
      by_cases hE : s.recipient = ""
      · exact ⟨by simp [handleSend, hA, hE], by simp [handleSend, hA, hE],
          by simp [handleSend, hA, hE]⟩
      · exact ⟨by simp [handleSend, hA, hE, hP], by simp [handleSend, hA, hE, hP],
          by simp [handleSend, hA, hE, hP]⟩

/-- Claim C9 witness: a component whose previous submission succeeded keeps
the success status when the next submission fails validation on the empty
recipient, while the error is set and the old signature display is
cleared. -/
theorem handleSend_validation_failure_keeps_status_witness :
    (handleSend { token := TokenType.SOL, amount := "1.5", recipient := "",
                  status := TxStatus.success, signature := some "old-sig",
                  error := none, txHistory := [] }
        (some sampleWallet) okAdapter 0).state.status = TxStatus.success
    ∧ (handleSend { token := TokenType.SOL, amount := "1.5", recipient := "",
                    status := TxStatus.success, signature := some "old-sig",
                    error := none, txHistory := [] }
        (some sampleWallet) okAdapter 0).state.signature = none
    ∧ (handleSend { token := TokenType.SOL, amount := "1.5", recipient := "",
                    status := TxStatus.success, signature := some "old-sig",
                    error := none, txHistory := [] }
        (some sampleWallet) okAdapter 0).state.error.isSome = true :=
  handleSend_validation_failure_keeps_status
    { token := TokenType.SOL, amount := "1.5", recipient := "",
      status := TxStatus.success, signature := some "old-sig",
      error := none, txHistory := [] }
    (some sampleWallet) okAdapter 0 (Or.inr (Or.inr (by decide)))

/-- Every atomic transition of the balance hook yields a state in which a
set loading flag implies an absent error. -/
theorem balanceStep_loading_no_error (s : BalanceState) (a : BalanceAction) :
    (balanceStep s a).isLoading = true → (balanceStep s a).error = none := by
  cases a with
  | resetNull => intro h; rfl
  | beginFetch => intro h; rfl
  | completeWith env =>
    cases henv : env.balanceResult with
    | ok lam => intro h; simp [balanceStep, completeFetch, henv]
    | netError m => intro h; simp [balanceStep, completeFetch, henv] at h

/-- The loading-implies-no-error invariant is preserved along every action
sequence. -/
theorem balanceInv_run (acts : List BalanceAction) :
    ∀ s : BalanceState,
      (s.isLoading = true → s.error = none) →
      ((runBalance s acts).isLoading = true → (runBalance s acts).error = none) := by
  induction acts with
  | nil => intro s h; exact h
  | cons a rest ih =>
    intro s h
    exact ih (balanceStep s a) (balanceStep_loading_no_error s a)

/-- Claim C10: every snapshot reachable from the initial state of the
balance hook through its transitions, in any interleaving of resets, fetch
starts and fetch completions, satisfies the invariant that a loading
snapshot carries no error: the loading transition clears the error and both
terminal transitions clear the loading flag. -/
theorem balance_loading_implies_no_error (acts : List BalanceAction) :
    (runBalance initialBalanceState acts).isLoading = true →
    (runBalance initialBalanceState acts).error = none :=
  balanceInv_run acts initialBalanceState (fun _ => rfl)

/-- Claim C10 witness: directly after the loading transition the snapshot is
loading, and the invariant yields that its error is absent. -/
theorem balance_loading_implies_no_error_witness :
    (runBalance initialBalanceState [BalanceAction.beginFetch]).error = none :=
  balance_loading_implies_no_error [BalanceAction.beginFetch] (by decide)

end LazorDemo
